import Mathlib

/-!
Verification of the nanoleaf effects client (effects.go).

The development embeds the effect-control subsystem: the data model
(EffectData, palette colors, plugin options, stream animations), the
status-code-to-error mapping performed by every Facade operation, the
request payloads the operations send, and the custom-effect text encoder
`ToString`.  JSON (un)marshalling and the HTTP transport are external
collaborators; they enter the model as decoder functions
(String to Option alpha, standing for json.Unmarshal at the relevant
type) and as a transport result (an Except value carrying either a
transport error message or a status code plus body).
-/

/-- Error values of the client (declared outside effects.go, named there
as ErrUnauthorized, ErrEffectNotFound, ErrUnexpectedResponse,
ErrParsingJSON; a transport failure is propagated unmodified, carried
here as a message). -/
inductive NanoError where
  | transport (msg : String)
  | unauthorized
  | effectNotFound
  | unexpectedResponse
  | parsingJSON
deriving DecidableEq, Repr

def ErrUnauthorized : NanoError := NanoError.unauthorized

def ErrEffectNotFound : NanoError := NanoError.effectNotFound

def ErrUnexpectedResponse : NanoError := NanoError.unexpectedResponse

def ErrParsingJSON : NanoError := NanoError.parsingJSON

/-- JSON values, used for the request payloads the operations build. -/
inductive Json where
  | null
  | bool (b : Bool)
  | num (n : Int)
  | str (s : String)
  | arr (elems : List Json)
  | obj (fields : List (String × Json))

/-- Modelled from the spec: the envelope payload type (a JSON object
written as a map in the source, here an ordered field list). -/
abbrev jsonPayload := List (String × Json)

/-- An HTTP response as seen by the client: status code and body bytes. -/
structure HttpResponse where
  StatusCode : Nat
  Body : String
deriving DecidableEq, Repr

/-- Result of issuing a request: either a transport error (the non-nil
err branch in the source) or a response. -/
abbrev TransportResult := Except String HttpResponse

def StatusOK : Nat := 200

def StatusNoContent : Nat := 204

def StatusUnauthorized : Nat := 401

def StatusNotFound : Nat := 404

structure PaletteColor where
  Hue : Int
  Saturation : Int
  Brightness : Int
  Probability : ℚ
deriving DecidableEq, Repr

/-- Modelled from the spec: the heterogeneous plugin-option value
(int, float, bool, or string in the source's comment). -/
inductive PluginValue where
  | intVal (i : Int)
  | floatVal (q : ℚ)
  | boolVal (b : Bool)
  | strVal (s : String)
deriving DecidableEq, Repr

structure PluginOption where
  Name : String
  Value : PluginValue
deriving DecidableEq, Repr

/-- EffectData, the full definition of an effect (effects.go lines 16-32). -/
structure EffectData where
  Command : String
  Loop : Bool
  Name : String
  Type' : String
  Version : String
  Data : String
  ColorType : String
  Palette : List PaletteColor
  PluginType : String
  PluginUuid : String
  PluginOptions : List PluginOption
  OverlayPalette : List PaletteColor
  OverlayColorType : String
  HasOverlay : Bool
  LogicalPanelsEnabled : Bool
deriving DecidableEq, Repr

/-- The zero value of EffectData (Go's `var data EffectData`). -/
def EffectData.zero : EffectData :=
  ⟨"", false, "", "", "", "", "", [], "", "", [], [], "", false, false⟩

/-- Modelled from the spec: one (color, transition-time) step in a
panel's animation sequence; red, green, blue 0-255, transition time in
tenths of a second (declared outside effects.go). -/
structure Frame where
  Red : Nat
  Green : Nat
  Blue : Nat
  Transition : Nat
deriving DecidableEq, Repr

/-- Modelled from the spec: one panel with a stable numeric id and an
ordered sequence of frames (declared outside effects.go). -/
structure Panel where
  ID : Nat
  Frames : List Frame
deriving DecidableEq, Repr

/-- Modelled from the spec: a caller-constructed stream animation, an
ordered sequence of panels (declared outside effects.go). -/
structure StreamEffect where
  Panels : List Panel
deriving DecidableEq, Repr

abbrev StringList := List String

abbrev EffectDataList := List EffectData

namespace NanoEffects

/-- List (effects.go lines 55-78): GET /effectsList, 401 then non-200
checks, then decode a JSON array of strings; on the decode-failure path
the source returns the literal nil slice. -/
def List (decodeStrings : String → Option StringList) (r : TransportResult) :
    StringList × Option NanoError :=
  match r with
  | Except.error err => ([], some (NanoError.transport err))
  | Except.ok resp =>
    if resp.StatusCode = StatusUnauthorized then ([], some ErrUnauthorized)
    else if resp.StatusCode ≠ StatusOK then ([], some ErrUnexpectedResponse)
    else
      match decodeStrings resp.Body with
      | none => ([], some ErrParsingJSON)
      | some effects => (effects, none)

/-- Body sent by Set (effects.go line 82). -/
def Set_body (name : String) : jsonPayload := [("select", Json.str name)]

/-- Set (effects.go lines 81-102): PUT the select envelope; 401, 404,
then non-204 checks; no body is decoded. -/
def Set (name : String) (r : TransportResult) : Option NanoError :=
  match r with
  | Except.error err => some (NanoError.transport err)
  | Except.ok resp =>
    if resp.StatusCode = StatusUnauthorized then some ErrUnauthorized
    else if resp.StatusCode = StatusNotFound then some ErrEffectNotFound
    else if resp.StatusCode ≠ StatusNoContent then some ErrUnexpectedResponse
    else none

/-- Get (effects.go lines 105-128): GET /select, 401 then non-200
checks, then decode a JSON string; error paths return the empty string. -/
def Get (decodeString : String → Option String) (r : TransportResult) :
    String × Option NanoError :=
  match r with
  | Except.error err => ("", some (NanoError.transport err))
  | Except.ok resp =>
    if resp.StatusCode = StatusUnauthorized then ("", some ErrUnauthorized)
    else if resp.StatusCode ≠ StatusOK then ("", some ErrUnexpectedResponse)
    else
      match decodeString resp.Body with
      | none => ("", some ErrParsingJSON)
      | some effect => (effect, none)

/-- Body sent by GetEffectData (effects.go lines 133-138). -/
def GetEffectData_body (effect : String) : jsonPayload :=
  [("write", Json.obj [("command", Json.str "request"), ("animName", Json.str effect)])]

/-- GetEffectData (effects.go lines 131-163): PUT the request command;
401, 404, then non-200 checks, then decode an EffectData; error paths
return the zero EffectData. -/
def GetEffectData (decodeEffectData : String → Option EffectData) (effect : String)
    (r : TransportResult) : EffectData × Option NanoError :=
  match r with
  | Except.error err => (EffectData.zero, some (NanoError.transport err))
  | Except.ok resp =>
    if resp.StatusCode = StatusUnauthorized then (EffectData.zero, some ErrUnauthorized)
    else if resp.StatusCode = StatusNotFound then (EffectData.zero, some ErrEffectNotFound)
    else if resp.StatusCode ≠ StatusOK then (EffectData.zero, some ErrUnexpectedResponse)
    else
      match decodeEffectData resp.Body with
      | none => (EffectData.zero, some ErrParsingJSON)
      | some d => (d, none)

/-- Body sent by GetAllEffectData (effects.go lines 171-175). -/
def GetAllEffectData_body : jsonPayload :=
  [("write", Json.obj [("command", Json.str "requestAll")])]

/-- GetAllEffectData (effects.go lines 166-200): PUT the requestAll
command; 401, 404, then non-200 checks, then decode the animations
envelope; error paths return the zero (empty) slice. -/
def GetAllEffectData (decodeAnimations : String → Option EffectDataList)
    (r : TransportResult) : EffectDataList × Option NanoError :=
  match r with
  | Except.error err => ([], some (NanoError.transport err))
  | Except.ok resp =>
    if resp.StatusCode = StatusUnauthorized then ([], some ErrUnauthorized)
    else if resp.StatusCode = StatusNotFound then ([], some ErrEffectNotFound)
    else if resp.StatusCode ≠ StatusOK then ([], some ErrUnexpectedResponse)
    else
      match decodeAnimations resp.Body with
      | none => ([], some ErrParsingJSON)
      | some animations => (animations, none)

/-- Body sent by RenameEffect (effects.go lines 205-211). -/
def RenameEffect_body (animName newName : String) : jsonPayload :=
  [("write", Json.obj [("command", Json.str "rename"), ("animName", Json.str animName),
    ("newName", Json.str newName)])]

/-- RenameEffect (effects.go lines 203-231): PUT the rename command;
401, 404, then non-204 checks; no body is decoded. -/
def RenameEffect (animName newName : String) (r : TransportResult) : Option NanoError :=
  match r with
  | Except.error err => some (NanoError.transport err)
  | Except.ok resp =>
    if resp.StatusCode = StatusUnauthorized then some ErrUnauthorized
    else if resp.StatusCode = StatusNotFound then some ErrEffectNotFound
    else if resp.StatusCode ≠ StatusNoContent then some ErrUnexpectedResponse
    else none

/-- The EffectData value AddEffect places under the write key after the
two assignments `data.Command = "add"` and `data.Name = animName`
(effects.go lines 236-240). -/
def AddEffect_payload (data : EffectData) (animName : String) : EffectData :=
  { data with Command := "add", Name := animName }

/-- AddEffect (effects.go lines 234-260): overwrite command and name on
the given EffectData, PUT it under write; 401, 404, then non-204 checks. -/
def AddEffect (data : EffectData) (animName : String) (r : TransportResult) :
    Option NanoError :=
  match r with
  | Except.error err => some (NanoError.transport err)
  | Except.ok resp =>
    if resp.StatusCode = StatusUnauthorized then some ErrUnauthorized
    else if resp.StatusCode = StatusNotFound then some ErrEffectNotFound
    else if resp.StatusCode ≠ StatusNoContent then some ErrUnexpectedResponse
    else none

/-- Body sent by DeleteEffect (effects.go lines 265-270). -/
def DeleteEffect_body (animName : String) : jsonPayload :=
  [("write", Json.obj [("command", Json.str "delete"), ("animName", Json.str animName)])]

/-- DeleteEffect (effects.go lines 263-290): PUT the delete command;
401, 404, then non-204 checks; no body is decoded. -/
def DeleteEffect (animName : String) (r : TransportResult) : Option NanoError :=
  match r with
  | Except.error err => some (NanoError.transport err)
  | Except.ok resp =>
    if resp.StatusCode = StatusUnauthorized then some ErrUnauthorized
    else if resp.StatusCode = StatusNotFound then some ErrEffectNotFound
    else if resp.StatusCode ≠ StatusNoContent then some ErrUnexpectedResponse
    else none

/-- WriteRaw (effects.go lines 293-309): PUT the given raw payload;
401 then non-204 checks, no 404 case; no body is decoded. -/
def WriteRaw (body : jsonPayload) (r : TransportResult) : Option NanoError :=
  match r with
  | Except.error err => some (NanoError.transport err)
  | Except.ok resp =>
    if resp.StatusCode = StatusUnauthorized then some ErrUnauthorized
    else if resp.StatusCode ≠ StatusNoContent then some ErrUnexpectedResponse
    else none

/-- Body built by Display (effects.go lines 313-321). -/
def Display_body (data : String) (loop : Bool) : jsonPayload :=
  [("write", Json.obj [("command", Json.str "display"), ("animType", Json.str "custom"),
    ("colorType", Json.str "RGB"), ("animData", Json.str data), ("loop", Json.bool loop)])]

/-- Display (effects.go lines 312-324): build the display payload and
delegate to WriteRaw. -/
def Display (data : String) (loop : Bool) (r : TransportResult) : Option NanoError :=
  WriteRaw (Display_body data loop) r

/-- Body built by DisplayTemp (effects.go lines 328-334). -/
def DisplayTemp_body (animName : String) (duration : Int) : jsonPayload :=
  [("write", Json.obj [("command", Json.str "displayTemp"), ("duration", Json.num duration),
    ("animName", Json.str animName)])]

/-- DisplayTemp (effects.go lines 327-337): build the displayTemp
payload and delegate to WriteRaw. -/
def DisplayTemp (animName : String) (duration : Int) (r : TransportResult) :
    Option NanoError :=
  WriteRaw (DisplayTemp_body animName duration) r

/-- One frame appended to the accumulated data string: the body of the
inner loop of ToString (effects.go line 347), Sprintf format
`%s %d %d %d 0 %d`. -/
def frameStep (d : String) (frame : Frame) : String :=
  d ++ " " ++ Nat.repr frame.Red ++ " " ++ Nat.repr frame.Green ++ " " ++
    Nat.repr frame.Blue ++ " 0 " ++ Nat.repr frame.Transition

/-- One panel appended to the accumulated data string: panel id, frame
count, then the frames (effects.go lines 344-348). -/
def panelStep (data : String) (panel : Panel) : String :=
  panel.Frames.foldl frameStep
    (data ++ " " ++ Nat.repr panel.ID ++ " " ++ Nat.repr panel.Frames.length)

/-- ToString (effects.go lines 340-352): panel count, then each panel
in order. -/
def ToString (effect : StreamEffect) : String :=
  effect.Panels.foldl panelStep (Nat.repr effect.Panels.length)

end NanoEffects

/-- Modelled from the spec: the payload the claim says Display amounts to
sending through WriteRaw. -/
def displayPayloadSpec (data : String) (loop : Bool) : jsonPayload :=
  [("write", Json.obj [("command", Json.str "display"), ("animType", Json.str "custom"),
    ("colorType", Json.str "RGB"), ("animData", Json.str data), ("loop", Json.bool loop)])]

/-- Modelled from the spec: the payload the claim says DisplayTemp
amounts to sending through WriteRaw. -/
def displayTempPayloadSpec (name : String) (duration : Int) : jsonPayload :=
  [("write", Json.obj [("command", Json.str "displayTemp"), ("duration", Json.num duration),
    ("animName", Json.str name)])]

/-- Token sequence contributed by one frame in the streaming format:
red, green, blue, the literal 0, transition time. -/
def frameToks (f : Frame) : List Nat := [f.Red, f.Green, f.Blue, 0, f.Transition]

/-- Token sequence contributed by one panel: id, frame count, frames. -/
def panelToks (p : Panel) : List Nat :=
  p.ID :: p.Frames.length :: (p.Frames.map frameToks).flatten

/-- Append tokens to an accumulated data string, one space before each
token, exactly as the Sprintf calls in ToString do. -/
def rend (s : String) (ts : List Nat) : String :=
  ts.foldl (fun a n => a ++ " " ++ Nat.repr n) s

/-- Decimal digits of a natural number, most significant first; the
reference rendering that Nat.repr is proved to agree with. -/
def decDigits (n : Nat) : List Char :=
  if n < 10 then [Nat.digitChar n]
  else decDigits (n / 10) ++ [Nat.digitChar (n % 10)]
decreasing_by exact Nat.div_lt_self (by omega) (by omega)

/-- Modelled from the spec: reading one space-separated token as an
integer — the token must be a nonempty run of decimal digits. -/
def readTok? (cs : List Char) : Option Nat :=
  if cs ≠ [] ∧ cs.all Char.isDigit then
    some (cs.foldl (fun n c => n * 10 + (c.toNat - 48)) 0)
  else none

/-- Modelled from the spec: splitting a character sequence on every
space (the positional, space-separated token stream). -/
def splitCh : List Char → List (List Char)
  | [] => [[]]
  | c :: cs =>
    if c = ' ' then [] :: splitCh cs
    else
      match splitCh cs with
      | [] => [[c]]
      | t :: ts => (c :: t) :: ts

/-- Modelled from the spec: read every token as an integer, failing if
any token does not read. -/
def readToks : List (List Char) → Option (List Nat)
  | [] => some []
  | c :: cs =>
    match readTok? c, readToks cs with
    | some n, some ns => some (n :: ns)
    | _, _ => none

/-- Modelled from the spec: the token stream of an encoded animation —
every space-separated component must read as an integer. -/
def tokenize (s : String) : Option (List Nat) :=
  readToks (splitCh s.data)

/-- Modelled from the spec: parse the given number of frames, each five
integers red, green, blue, a literal 0, and transition time. -/
def parseFrames : Nat → List Nat → Option (List Frame × List Nat)
  | 0, ts => some ([], ts)
  | n + 1, r :: g :: b :: w :: t :: ts =>
    if w = 0 then
      match parseFrames n ts with
      | some (fs, rest) => some (⟨r, g, b, t⟩ :: fs, rest)
      | none => none
    else none
  | _ + 1, _ => none

/-- Modelled from the spec: parse the given number of panels, each a
panel id, a frame count, and that many frames. -/
def parsePanels : Nat → List Nat → Option (List Panel × List Nat)
  | 0, ts => some ([], ts)
  | n + 1, pid :: cnt :: ts =>
    match parseFrames cnt ts with
    | some (fs, rest) =>
      match parsePanels n rest with
      | some (ps, rest2) => some (⟨pid, fs⟩ :: ps, rest2)
      | none => none
    | none => none
  | _ + 1, _ => none

/-- Modelled from the spec: parse a whole animation by the grammar
panelCount, then per panel id, frame count and frames, with no trailing
content. -/
def parseAnimation : List Nat → Option StreamEffect
  | [] => none
  | p :: ts =>
    match parsePanels p ts with
    | some (ps, []) => some ⟨ps⟩
    | _ => none

/-- Modelled from the spec: full decoder of the streaming text format. -/
def decodeAnimation (s : String) : Option StreamEffect :=
  (tokenize s).bind parseAnimation

/-- C2: encoding the two-panel animation (panel 1 with frame (255,0,0,5),
panel 2 with frames (0,255,0,3) and (0,0,255,7)) yields exactly
"2 1 1 255 0 0 0 5 2 2 0 255 0 0 3 0 0 255 0 7". -/
theorem C2_two_panel_encoding :
    NanoEffects.ToString ⟨[⟨1, [⟨255, 0, 0, 5⟩]⟩, ⟨2, [⟨0, 255, 0, 3⟩, ⟨0, 0, 255, 7⟩]⟩]⟩ =
      "2 1 1 255 0 0 0 5 2 2 0 255 0 0 3 0 0 255 0 7" := by decide

/-- C8: encoding an animation with zero panels yields exactly "0". -/
theorem C8_zero_panels : NanoEffects.ToString ⟨[]⟩ = "0" := rfl

/-- C3: AddEffect overwrites the payload's command field with "add" and
its name field with the given target name before sending, for every
caller-supplied EffectData, even one that already carries different
values for those two fields. -/
theorem C3_addEffect_forces_fields (data : EffectData) (animName : String) :
    (NanoEffects.AddEffect_payload data animName).Command = "add" ∧
    (NanoEffects.AddEffect_payload data animName).Name = animName :=
  ⟨rfl, rfl⟩

/-- C4: for every Facade operation, an HTTP 401 response yields the
Unauthorized error kind, regardless of the response body and of every
other argument; the 401 check comes before every other status mapping. -/
theorem C4_401_unauthorized (decL : String → Option StringList)
    (decS : String → Option String) (decE : String → Option EffectData)
    (decA : String → Option EffectDataList) (body name animName newName : String)
    (ed : EffectData) (payload : jsonPayload) (animData : String) (loop : Bool)
    (duration : Int) :
    NanoEffects.List decL (Except.ok ⟨401, body⟩) = ([], some ErrUnauthorized) ∧
    NanoEffects.Set name (Except.ok ⟨401, body⟩) = some ErrUnauthorized ∧
    NanoEffects.Get decS (Except.ok ⟨401, body⟩) = ("", some ErrUnauthorized) ∧
    NanoEffects.GetEffectData decE name (Except.ok ⟨401, body⟩) =
      (EffectData.zero, some ErrUnauthorized) ∧
    NanoEffects.GetAllEffectData decA (Except.ok ⟨401, body⟩) = ([], some ErrUnauthorized) ∧
    NanoEffects.RenameEffect animName newName (Except.ok ⟨401, body⟩) = some ErrUnauthorized ∧
    NanoEffects.AddEffect ed animName (Except.ok ⟨401, body⟩) = some ErrUnauthorized ∧
    NanoEffects.DeleteEffect animName (Except.ok ⟨401, body⟩) = some ErrUnauthorized ∧
    NanoEffects.WriteRaw payload (Except.ok ⟨401, body⟩) = some ErrUnauthorized ∧
    NanoEffects.Display animData loop (Except.ok ⟨401, body⟩) = some ErrUnauthorized ∧
    NanoEffects.DisplayTemp animName duration (Except.ok ⟨401, body⟩) = some ErrUnauthorized :=
  ⟨rfl, rfl, rfl, rfl, rfl, rfl, rfl, rfl, rfl, rfl, rfl⟩

/-- C1 fails on the code: List maps a 404 response to UnexpectedResponse,
not to EffectNotFound. -/
theorem C1_404_counterexample :
    NanoEffects.List (fun _ => none) (Except.ok ⟨404, ""⟩) =
      ([], some NanoError.unexpectedResponse) ∧
    NanoError.unexpectedResponse ≠ NanoError.effectNotFound :=
  ⟨rfl, by decide⟩

/-- C1 (amended): a 404 response is mapped to EffectNotFound by Set,
GetEffectData, GetAllEffectData, RenameEffect, AddEffect and
DeleteEffect; List, Get, WriteRaw, Display and DisplayTemp have no 404
case and map 404 to UnexpectedResponse. -/
theorem C1_amended_404_mapping (decL : String → Option StringList)
    (decS : String → Option String) (decE : String → Option EffectData)
    (decA : String → Option EffectDataList) (body name animName newName : String)
    (ed : EffectData) (payload : jsonPayload) (animData : String) (loop : Bool)
    (duration : Int) :
    NanoEffects.Set name (Except.ok ⟨404, body⟩) = some ErrEffectNotFound ∧
    NanoEffects.GetEffectData decE name (Except.ok ⟨404, body⟩) =
      (EffectData.zero, some ErrEffectNotFound) ∧
    NanoEffects.GetAllEffectData decA (Except.ok ⟨404, body⟩) = ([], some ErrEffectNotFound) ∧
    NanoEffects.RenameEffect animName newName (Except.ok ⟨404, body⟩) = some ErrEffectNotFound ∧
    NanoEffects.AddEffect ed animName (Except.ok ⟨404, body⟩) = some ErrEffectNotFound ∧
    NanoEffects.DeleteEffect animName (Except.ok ⟨404, body⟩) = some ErrEffectNotFound ∧
    NanoEffects.List decL (Except.ok ⟨404, body⟩) = ([], some ErrUnexpectedResponse) ∧
    NanoEffects.Get decS (Except.ok ⟨404, body⟩) = ("", some ErrUnexpectedResponse) ∧
    NanoEffects.WriteRaw payload (Except.ok ⟨404, body⟩) = some ErrUnexpectedResponse ∧
    NanoEffects.Display animData loop (Except.ok ⟨404, body⟩) = some ErrUnexpectedResponse ∧
    NanoEffects.DisplayTemp animName duration (Except.ok ⟨404, body⟩) =
      some ErrUnexpectedResponse :=
  ⟨rfl, rfl, rfl, rfl, rfl, rfl, rfl, rfl, rfl, rfl, rfl⟩

/-- C9: Display behaves exactly as WriteRaw applied to the display
payload spelled out in the claim, and DisplayTemp exactly as WriteRaw
applied to the displayTemp payload; with the transport result quantified,
their error mapping for every status code is identical to WriteRaw's. -/
theorem C9_display_refines_writeRaw (data name : String) (loop : Bool) (duration : Int)
    (r : TransportResult) :
    NanoEffects.Display data loop r = NanoEffects.WriteRaw (displayPayloadSpec data loop) r ∧
    NanoEffects.DisplayTemp name duration r =
      NanoEffects.WriteRaw (displayTempPayloadSpec name duration) r :=
  ⟨rfl, rfl⟩

/-- C6: for every body-returning operation (List, Get, GetEffectData,
GetAllEffectData) and every response whose status is not 200, the result
does not depend on the body decoder (the body is never decoded), and the
error is status-derived (Unauthorized, EffectNotFound or
UnexpectedResponse) — in particular never ParsingJSON. -/
theorem C6_non200_status_error (s : Nat) (body name : String)
    (decL decL2 : String → Option StringList) (decS decS2 : String → Option String)
    (decE decE2 : String → Option EffectData) (decA decA2 : String → Option EffectDataList)
    (h : s ≠ 200) :
    (NanoEffects.List decL (Except.ok ⟨s, body⟩) =
        NanoEffects.List decL2 (Except.ok ⟨s, body⟩) ∧
      ((NanoEffects.List decL (Except.ok ⟨s, body⟩)).2 = some ErrUnauthorized ∨
        (NanoEffects.List decL (Except.ok ⟨s, body⟩)).2 = some ErrEffectNotFound ∨
        (NanoEffects.List decL (Except.ok ⟨s, body⟩)).2 = some ErrUnexpectedResponse)) ∧
    (NanoEffects.Get decS (Except.ok ⟨s, body⟩) =
        NanoEffects.Get decS2 (Except.ok ⟨s, body⟩) ∧
      ((NanoEffects.Get decS (Except.ok ⟨s, body⟩)).2 = some ErrUnauthorized ∨
        (NanoEffects.Get decS (Except.ok ⟨s, body⟩)).2 = some ErrEffectNotFound ∨
        (NanoEffects.Get decS (Except.ok ⟨s, body⟩)).2 = some ErrUnexpectedResponse)) ∧
    (NanoEffects.GetEffectData decE name (Except.ok ⟨s, body⟩) =
        NanoEffects.GetEffectData decE2 name (Except.ok ⟨s, body⟩) ∧
      ((NanoEffects.GetEffectData decE name (Except.ok ⟨s, body⟩)).2 = some ErrUnauthorized ∨
        (NanoEffects.GetEffectData decE name (Except.ok ⟨s, body⟩)).2 = some ErrEffectNotFound ∨
        (NanoEffects.GetEffectData decE name (Except.ok ⟨s, body⟩)).2 =
          some ErrUnexpectedResponse)) ∧
    (NanoEffects.GetAllEffectData decA (Except.ok ⟨s, body⟩) =
        NanoEffects.GetAllEffectData decA2 (Except.ok ⟨s, body⟩) ∧
      ((NanoEffects.GetAllEffectData decA (Except.ok ⟨s, body⟩)).2 = some ErrUnauthorized ∨
        (NanoEffects.GetAllEffectData decA (Except.ok ⟨s, body⟩)).2 = some ErrEffectNotFound ∨
        (NanoEffects.GetAllEffectData decA (Except.ok ⟨s, body⟩)).2 =
          some ErrUnexpectedResponse)) := by
  refine ⟨⟨?_, ?_⟩, ⟨?_, ?_⟩, ⟨?_, ?_⟩, ⟨?_, ?_⟩⟩ <;>
    simp only [NanoEffects.List, NanoEffects.Get, NanoEffects.GetEffectData,
      NanoEffects.GetAllEffectData, StatusUnauthorized, StatusOK, StatusNotFound] <;>
    split_ifs <;> simp_all

/-- C6 witness: at status 404 the List result is identical for two
different decoders. -/
theorem C6_witness :
    NanoEffects.List (fun _ => none) (Except.ok ⟨404, ""⟩) =
      NanoEffects.List (fun _ => some ["Flow"]) (Except.ok ⟨404, ""⟩) :=
  (C6_non200_status_error 404 "" "Flow" (fun _ => none) (fun _ => some ["Flow"])
    (fun _ => none) (fun _ => none) (fun _ => none) (fun _ => none)
    (fun _ => none) (fun _ => none) (by decide)).1.1

/-- C7: for every 200 response whose body fails to decode, each
body-returning operation returns exactly its zero value paired with the
single ParsingJSON (MalformedResponse) error kind — never a partial
result alongside success. -/
theorem C7_decode_failure (body name : String) (decL : String → Option StringList)
    (decS : String → Option String) (decE : String → Option EffectData)
    (decA : String → Option EffectDataList) (hL : decL body = none)
    (hS : decS body = none) (hE : decE body = none) (hA : decA body = none) :
    NanoEffects.List decL (Except.ok ⟨200, body⟩) = ([], some ErrParsingJSON) ∧
    NanoEffects.Get decS (Except.ok ⟨200, body⟩) = ("", some ErrParsingJSON) ∧
    NanoEffects.GetEffectData decE name (Except.ok ⟨200, body⟩) =
      (EffectData.zero, some ErrParsingJSON) ∧
    NanoEffects.GetAllEffectData decA (Except.ok ⟨200, body⟩) = ([], some ErrParsingJSON) := by
  refine ⟨?_, ?_, ?_, ?_⟩ <;>
    simp [NanoEffects.List, NanoEffects.Get, NanoEffects.GetEffectData,
      NanoEffects.GetAllEffectData, StatusUnauthorized, StatusOK, StatusNotFound,
      hL, hS, hE, hA]

/-- C7 witness: List at a 200 response whose body does not decode. -/
theorem C7_witness :
    NanoEffects.List (fun _ => none) (Except.ok ⟨200, "not json"⟩) =
      ([], some ErrParsingJSON) :=
  (C7_decode_failure "not json" "Flow" (fun _ => none) (fun _ => none) (fun _ => none)
    (fun _ => none) rfl rfl rfl rfl).1

/-- C10: whenever List returns a non-nil error its result slice is the
nil slice, and whenever Get returns a non-nil error its result string is
the empty string. -/
theorem C10_error_returns_zero_value :
    (∀ (dec : String → Option StringList) (r : TransportResult) (xs : StringList)
      (e : NanoError), NanoEffects.List dec r = (xs, some e) → xs = []) ∧
    (∀ (dec : String → Option String) (r : TransportResult) (s : String)
      (e : NanoError), NanoEffects.Get dec r = (s, some e) → s = "") := by
  constructor
  · intro dec r xs e h
    cases r with
    | error err => exact (congrArg Prod.fst h).symm
    | ok resp =>
      simp only [NanoEffects.List] at h
      split_ifs at h
      · exact (congrArg Prod.fst h).symm
      · exact (congrArg Prod.fst h).symm
      · split at h
        · exact (congrArg Prod.fst h).symm
        · simp at h
  · intro dec r s e h
    cases r with
    | error err => exact (congrArg Prod.fst h).symm
    | ok resp =>
      simp only [NanoEffects.Get] at h
      split_ifs at h
      · exact (congrArg Prod.fst h).symm
      · exact (congrArg Prod.fst h).symm
      · split at h
        · exact (congrArg Prod.fst h).symm
        · simp at h

/-- C10 witness: instantiated at a 500 response. -/
theorem C10_witness : ([] : StringList) = [] ∧ ("" : String) = "" :=
  ⟨C10_error_returns_zero_value.1 (fun _ => none) (Except.ok ⟨500, ""⟩) []
      ErrUnexpectedResponse rfl,
    C10_error_returns_zero_value.2 (fun _ => none) (Except.ok ⟨500, ""⟩) ""
      ErrUnexpectedResponse rfl⟩

theorem rend_append (s : String) (ts us : List Nat) :
    rend s (ts ++ us) = rend (rend s ts) us := by
  simp [rend, List.foldl_append]

theorem space_data : (" " : String).data = [' '] := rfl

theorem zeroSeg_data : (" 0 " : String).data = [' ', '0', ' '] := rfl

theorem repr_zero_data : (Nat.repr 0).data = ['0'] := rfl

theorem frameStep_eq (d : String) (f : Frame) :
    NanoEffects.frameStep d f = rend d (frameToks f) := by
  apply String.ext
  simp [NanoEffects.frameStep, frameToks, rend, String.data_append, space_data, zeroSeg_data,
    repr_zero_data]

theorem frames_foldl (fs : List Frame) (d : String) :
    fs.foldl NanoEffects.frameStep d = rend d ((fs.map frameToks).flatten) := by
  induction fs generalizing d with
  | nil => rfl
  | cons f fs ih =>
    simp only [List.foldl_cons, List.map_cons, List.flatten_cons, ih, frameStep_eq,
      rend_append]

theorem panelStep_eq (d : String) (p : Panel) :
    NanoEffects.panelStep d p = rend d (panelToks p) := by
  simp only [NanoEffects.panelStep, panelToks, frames_foldl]
  rfl

theorem panels_foldl (ps : List Panel) (d : String) :
    ps.foldl NanoEffects.panelStep d = rend d ((ps.map panelToks).flatten) := by
  induction ps generalizing d with
  | nil => rfl
  | cons p ps ih =>
    simp only [List.foldl_cons, List.map_cons, List.flatten_cons, ih, panelStep_eq,
      rend_append]

theorem toString_eq_rend (e : StreamEffect) :
    NanoEffects.ToString e =
      rend (Nat.repr e.Panels.length) ((e.Panels.map panelToks).flatten) :=
  panels_foldl e.Panels (Nat.repr e.Panels.length)

theorem toDigitsCore_eq (fuel : Nat) : ∀ (n : Nat) (acc : List Char), n < fuel →
    Nat.toDigitsCore 10 fuel n acc = decDigits n ++ acc := by
  induction fuel with
  | zero => intro n acc h; omega
  | succ fuel ih =>
    intro n acc h
    rw [Nat.toDigitsCore]
    by_cases h10 : n / 10 = 0
    · have hlt : n < 10 := by omega
      rw [if_pos h10, decDigits, if_pos hlt, Nat.mod_eq_of_lt hlt]
      rfl
    · have hpos : 0 < n := by
        rcases Nat.eq_zero_or_pos n with h0 | h0
        · subst h0; simp at h10
        · exact h0
      have hdiv : n / 10 < n := Nat.div_lt_self hpos (by omega)
      rw [if_neg h10, ih (n / 10) (Nat.digitChar (n % 10) :: acc) (by omega)]
      have hn10 : ¬ n < 10 := by
        intro hc
        exact h10 (Nat.div_eq_of_lt hc)
      conv_rhs => rw [decDigits]
      rw [if_neg hn10]
      simp

theorem repr_data (n : Nat) : (Nat.repr n).data = decDigits n := by
  show (Nat.toDigitsCore 10 (n + 1) n []).asString.data = decDigits n
  rw [toDigitsCore_eq (n + 1) n [] (by omega)]
  simp [List.asString]

theorem digitChar_isDigit (d : Nat) (h : d < 10) : (Nat.digitChar d).isDigit = true := by
  interval_cases d <;> decide

theorem digitChar_toNat (d : Nat) (h : d < 10) : (Nat.digitChar d).toNat = 48 + d := by
  interval_cases d <;> decide

theorem isDigit_ne_space (c : Char) (h : c.isDigit = true) : c ≠ ' ' := by
  intro he
  subst he
  exact absurd h (by decide)

theorem decDigits_ne_nil (n : Nat) : decDigits n ≠ [] := by
  rw [decDigits]
  split <;> simp

theorem decDigits_digits (n : Nat) : ∀ c ∈ decDigits n, c.isDigit = true := by
  induction n using Nat.strong_induction_on with
  | _ n ih =>
    rw [decDigits]
    split
    · intro c hc
      simp at hc
      subst hc
      exact digitChar_isDigit n (by omega)
    · intro c hc
      rw [List.mem_append] at hc
      rcases hc with hc | hc
      · exact ih (n / 10) (Nat.div_lt_self (by omega) (by omega)) c hc
      · simp at hc
        subst hc
        exact digitChar_isDigit (n % 10) (Nat.mod_lt _ (by omega))

theorem foldl_decDigits (n : Nat) : ∀ acc : Nat,
    (decDigits n).foldl (fun a c => a * 10 + (c.toNat - 48)) acc =
      acc * 10 ^ (decDigits n).length + n := by
  induction n using Nat.strong_induction_on with
  | _ n ih =>
    intro acc
    rw [decDigits]
    split
    · rw [List.foldl_cons, List.foldl_nil, digitChar_toNat n (by omega)]
      simp
    · rw [List.foldl_append, ih (n / 10) (Nat.div_lt_self (by omega) (by omega)) acc,
        List.foldl_cons, List.foldl_nil,
        digitChar_toNat (n % 10) (Nat.mod_lt _ (by omega)),
        List.length_append, List.length_cons, List.length_nil]
      have hmod : 48 + n % 10 - 48 = n % 10 := by omega
      rw [hmod, pow_succ]
      have hdm : 10 * (n / 10) + n % 10 = n := Nat.div_add_mod n 10
      calc (acc * 10 ^ (decDigits (n / 10)).length + n / 10) * 10 + n % 10
          = acc * (10 ^ (decDigits (n / 10)).length * 10) + (10 * (n / 10) + n % 10) := by
            ring
        _ = acc * (10 ^ (decDigits (n / 10)).length * 10) + n := by rw [hdm]

theorem readTok_repr (n : Nat) : readTok? (Nat.repr n).data = some n := by
  rw [repr_data, readTok?, if_pos]
  · rw [foldl_decDigits n 0]
    simp
  · refine ⟨decDigits_ne_nil n, ?_⟩
    rw [List.all_eq_true]
    exact decDigits_digits n

theorem repr_no_space (n : Nat) : ∀ c ∈ (Nat.repr n).data, c ≠ ' ' := by
  rw [repr_data]
  intro c hc
  exact isDigit_ne_space c (decDigits_digits n c hc)

theorem splitCh_append_space (a r : List Char) (h : ∀ c ∈ a, c ≠ ' ') :
    splitCh (a ++ ' ' :: r) = a :: splitCh r := by
  induction a with
  | nil => simp [splitCh]
  | cons c a ih =>
    have hc : c ≠ ' ' := h c (by simp)
    rw [List.cons_append, splitCh, if_neg hc, ih (fun x hx => h x (by simp [hx]))]

theorem splitCh_no_space (a : List Char) (h : ∀ c ∈ a, c ≠ ' ') : splitCh a = [a] := by
  induction a with
  | nil => rfl
  | cons c a ih =>
    rw [splitCh, if_neg (h c (by simp)), ih (fun x hx => h x (by simp [hx]))]

theorem splitCh_tokens (ts : List Nat) (a : List Char) (h : ∀ c ∈ a, c ≠ ' ') :
    splitCh (a ++ ts.flatMap (fun n => ' ' :: (Nat.repr n).data)) =
      a :: ts.map (fun n => (Nat.repr n).data) := by
  induction ts generalizing a with
  | nil => simpa using splitCh_no_space a h
  | cons t ts ih =>
    rw [List.flatMap_cons, List.cons_append,
      splitCh_append_space a
        ((Nat.repr t).data ++ ts.flatMap (fun n => ' ' :: (Nat.repr n).data)) h,
      ih (Nat.repr t).data (repr_no_space t), List.map_cons]

theorem rend_data (ts : List Nat) (s : String) :
    (rend s ts).data = s.data ++ ts.flatMap (fun n => ' ' :: (Nat.repr n).data) := by
  induction ts generalizing s with
  | nil => simp [rend]
  | cons t ts ih =>
    show (rend (s ++ " " ++ Nat.repr t) ts).data = _
    rw [ih]
    simp [String.data_append, space_data, List.append_assoc]

theorem readToks_repr (l : List Nat) :
    readToks (l.map (fun n => (Nat.repr n).data)) = some l := by
  induction l with
  | nil => rfl
  | cons x l ih => simp [readToks, readTok_repr, ih]

theorem tokenize_rend (t : Nat) (ts : List Nat) :
    tokenize (rend (Nat.repr t) ts) = some (t :: ts) := by
  rw [tokenize, rend_data, splitCh_tokens ts (Nat.repr t).data (repr_no_space t)]
  simp [readToks, readTok_repr, readToks_repr]

theorem parseFrames_toks (fs : List Frame) (rest : List Nat) :
    parseFrames fs.length ((fs.map frameToks).flatten ++ rest) = some (fs, rest) := by
  induction fs generalizing rest with
  | nil => rfl
  | cons f fs ih =>
    show parseFrames (fs.length + 1)
      ((frameToks f ++ (fs.map frameToks).flatten) ++ rest) = _
    simp only [frameToks, List.cons_append, List.nil_append, List.append_assoc]
    simp [parseFrames, ih]

theorem parsePanels_toks (ps : List Panel) (rest : List Nat) :
    parsePanels ps.length ((ps.map panelToks).flatten ++ rest) = some (ps, rest) := by
  induction ps generalizing rest with
  | nil => rfl
  | cons p ps ih =>
    show parsePanels (ps.length + 1)
      ((panelToks p ++ (ps.map panelToks).flatten) ++ rest) = _
    simp only [panelToks, List.cons_append, List.append_assoc]
    simp [parsePanels, parseFrames_toks p.Frames ((ps.map panelToks).flatten ++ rest), ih]

/-- C5: parsing the output of ToString by the device grammar (space
separated integers: panel count, then per panel its id, frame count and
per frame red, green, blue, a literal 0 and the transition time) recovers
the whole animation exactly — an encode/decode round trip with no
reordering. -/
theorem C5_encode_decode_roundtrip (e : StreamEffect) :
    decodeAnimation (NanoEffects.ToString e) = some e := by
  rw [decodeAnimation, toString_eq_rend, tokenize_rend, Option.some_bind]
  have h := parsePanels_toks e.Panels []
  rw [List.append_nil] at h
  simp [parseAnimation, h]
